import Mathlib

/-!
Shallow embedding of the agrinova farm-management service, written from the
repository sources (TypeScript handlers, front-end services and SQL
migrations).  JavaScript numbers are modelled as rationals (`ℚ`), machine
32-bit integer operations are made explicit, database tables are lists of
rows in insertion order, and ambient effects (wall-clock time, `Math.random`
draws) are explicit parameters of the embedded functions.
-/

namespace Agrinova

/-! ## JSON values

Response bodies of the HTTP handlers are JSON objects; we model them with a
small inductive type together with field lookup. -/

inductive JsonVal where
  | str (s : String)
  | num (q : ℚ)
  | boolean (b : Bool)
  | null
  | arr (xs : List JsonVal)
  | obj (fields : List (String × JsonVal))

/-- Look up the first field with the given name in a JSON object. -/
def JsonVal.getField : JsonVal → String → Option JsonVal
  | .obj fields, name => (fields.find? (fun f => f.1 = name)).map (·.2)
  | _, _ => none

/-- An HTTP response: status code and JSON body. -/
structure HttpResponse where
  status : ℕ
  body : JsonVal

/-! ## Carbon-credit calculation

From `src/services/carbonCreditService.ts`, `calculateEstimatedCredits`
(lines 84–110), and the POST branch of
`supabase/functions/carbon-credit-integration/index.ts` (lines 35–60).
`Math.round` on a nonnegative JS number agrees with Mathlib `round`
(half rounds up), and `Math.round(x*100)/100` is two-decimal rounding. -/

/-- `Math.round(x * 100) / 100`, the two-decimal rounding both sources use. -/
def round2 (x : ℚ) : ℚ := (round (x * 100) : ℤ) / 100

/-- JavaScript `toLowerCase()` (ASCII case mapping, character by
character). -/
def jsToLower (s : String) : String := ⟨s.toList.map Char.toLower⟩

/-- The `creditRates` table: credits per acre for each recognised practice;
the code substitutes `0.1` for an unrecognised practice
(`creditRates[practice] || 0.1`). -/
def creditRate (practice : String) : ℚ :=
  if practice = "no-till" then 1/2
  else if practice = "cover-cropping" then 3/10
  else if practice = "rotational-grazing" then 2/5
  else if practice = "agroforestry" then 4/5
  else if practice = "precision-agriculture" then 1/5
  else if practice = "organic-farming" then 3/5
  else 1/10

/-- The `cropMultipliers` table, looked up on `cropType.toLowerCase()`;
the code substitutes `1.0` for an unrecognised crop. -/
def cropMultiplier (cropLower : String) : ℚ :=
  if cropLower = "corn" then 1
  else if cropLower = "soy" then 11/10
  else if cropLower = "wheat" then 9/10
  else if cropLower = "rice" then 6/5
  else if cropLower = "cotton" then 4/5
  else 1

/-- `calculateEstimatedCredits` from `carbonCreditService.ts`: a fold over
the practices accumulating `rate * acreage`, then the crop multiplier, then
`Math.round(… * 100) / 100`. -/
def calculateEstimatedCredits (practices : List String) (acreage : ℚ)
    (cropType : String) : ℚ :=
  round2 ((practices.foldl (fun acc practice => acc + creditRate practice * acreage) 0)
    * cropMultiplier (jsToLower cropType))

/-- The POST branch of `carbon-credit-integration/index.ts` computes the same
quantity: the unrounded accumulator times the multiplier
(`estimatedCredits *= multiplier`); the stored `estimated_credits` column is
`Math.round(estimatedCredits * 100) / 100` of it. -/
def edgePostEstimatedCredits (practices : List String) (acreage : ℚ)
    (cropType : String) : ℚ :=
  (practices.foldl (fun acc practice => acc + creditRate practice * acreage) 0)
    * cropMultiplier (jsToLower cropType)

/-- The stored `estimated_credits` value written by the POST branch. -/
def edgeStoredEstimatedCredits (practices : List String) (acreage : ℚ)
    (cropType : String) : ℚ :=
  round2 (edgePostEstimatedCredits practices acreage cropType)

/-- The calculation as the specification words it: the per-practice rates
summed over the practices, times acreage, times the crop multiplier,
rounded to two decimals.  (Spec-side definition, for comparison with the
source-side ones above.) -/
def specEstimatedCredits (practices : List String) (acreage : ℚ)
    (cropType : String) : ℚ :=
  round2 ((practices.map creditRate).sum * acreage * cropMultiplier (jsToLower cropType))

lemma foldl_rate_eq_sum_mul (practices : List String) (acreage : ℚ) (init : ℚ) :
    practices.foldl (fun acc practice => acc + creditRate practice * acreage) init
      = init + (practices.map creditRate).sum * acreage := by
  induction practices generalizing init with
  | nil => simp
  | cons p ps ih =>
    simp only [List.foldl_cons, List.map_cons, List.sum_cons]
    rw [ih]
    ring

/-! ## Relational schema

Tables are modelled as lists of rows in insertion order.  From the
migrations: `farmers` (`src/unnamed/part_007`, `phone_number text UNIQUE NOT
NULL`), `api_credentials` (`20250617125644_falling_desert.sql`, `id text
PRIMARY KEY DEFAULT 'main'`), `ivr_calls` (`20250617095208_polished_fountain.sql`)
and `carbon_credits` (DDL embedded alongside
`sentinel-hub-integration/index.ts`). -/

/-- A row of the `farmers` table.  `id` is the uuid primary key (modelled as
a natural number surrogate); columns without `NOT NULL` are options. -/
structure FarmerRow where
  id : ℕ
  phone_number : String
  full_name : Option String
  location_name : Option String
  latitude : Option ℚ
  longitude : Option ℚ
  preferred_language : Option String
  crop : Option String
deriving Repr, DecidableEq

/-- Insert into `farmers`: rejected when the `UNIQUE` constraint on
`phone_number` is violated, otherwise the row is appended.  (The uuid
primary key defaults to `gen_random_uuid()`; its freshness is assumed and
no other constraint mentions it.) -/
def insertFarmer (t : List FarmerRow) (r : FarmerRow) :
    Except String (List FarmerRow) :=
  if t.any (fun r0 => r0.phone_number = r.phone_number) then
    .error "duplicate key value violates unique constraint on phone_number"
  else
    .ok (t ++ [r])

/-- The table after an attempted insert: unchanged when the insert errors. -/
def applyInsertFarmer (t : List FarmerRow) (r : FarmerRow) : List FarmerRow :=
  match insertFarmer t r with
  | .ok t' => t'
  | .error _ => t

/-- `supabase.from('farmers').select('*').eq('phone_number', p).single()`:
`single()` yields the row exactly when the filter matches one row. -/
def lookupFarmerByPhone (t : List FarmerRow) (p : String) : Option FarmerRow :=
  match t.filter (fun r => r.phone_number = p) with
  | [r] => some r
  | _ => none

/-- A row of the `api_credentials` table (`id text PRIMARY KEY`,
`credentials jsonb NOT NULL`, timestamps). -/
structure CredRow where
  id : String
  credentials : String
  created_at : String
  updated_at : String
deriving Repr, DecidableEq

/-- One invocation of the `save-api-credentials` handler
(`Deno.serve`, lines 17–97), restricted to its effect on the table: with a
missing/falsy `credentials` payload it returns early without writing;
otherwise it selects the row with `id = 'main'` (`maybeSingle()`), updates
`credentials`/`updated_at` when it exists and inserts
`{id: 'main', credentials, created_at, updated_at}` when it does not. -/
def saveCredentialsStep (t : List CredRow) (credentials : Option String)
    (now : String) : List CredRow :=
  match credentials with
  | none => t
  | some creds =>
    if t.any (fun r => r.id = "main") then
      t.map (fun r =>
        if r.id = "main" then { r with credentials := creds, updated_at := now }
        else r)
    else
      t ++ [{ id := "main", credentials := creds, created_at := now,
              updated_at := now }]

/-- A sequence of save invocations applied to a table. -/
def saveCredentialsRun (t : List CredRow) (ops : List (Option String × String)) :
    List CredRow :=
  ops.foldl (fun t0 op => saveCredentialsStep t0 op.1 op.2) t

lemma saveCredentialsStep_main (c : String) (ct ut : String)
    (creds : Option String) (now : String) :
    saveCredentialsStep [⟨"main", c, ct, ut⟩] creds now
      = [⟨"main", (creds.getD c),
          ct, (if creds.isSome then now else ut)⟩] := by
  cases creds <;> simp [saveCredentialsStep]

lemma saveCredentialsRun_main (ops : List (Option String × String))
    (c ct ut : String) :
    ∃ c' ut', saveCredentialsRun [⟨"main", c, ct, ut⟩] ops
        = [⟨"main", c', ct, ut'⟩]
      ∧ c' = (ops.filterMap (·.1)).getLast?.getD c := by
  induction ops generalizing c ut with
  | nil => exact ⟨c, ut, rfl, rfl⟩
  | cons op ops ih =>
    obtain ⟨op1, op2⟩ := op
    cases op1 with
    | none =>
      obtain ⟨c', ut', h, hc⟩ := ih c ut
      exact ⟨c', ut', by simpa [saveCredentialsRun, saveCredentialsStep_main,
        Option.getD] using h, by simpa using hc⟩
    | some creds =>
      obtain ⟨c', ut', h, hc⟩ := ih creds op2
      refine ⟨c', ut', ?_, ?_⟩
      · simpa [saveCredentialsRun, saveCredentialsStep_main, Option.getD] using h
      · rw [hc]
        simp [List.filterMap_cons, List.getLast?_cons, Option.getD]

/-! ## `ivr_calls` and `carbon_credits` rows, with their DDL constraints

From `20250617095208_polished_fountain.sql`: `ivr_calls` has
`crop_condition integer CHECK (crop_condition BETWEEN 1 AND 3)` and
`call_status text DEFAULT 'completed'` — plain text, with no CHECK
constraint.  From the `carbon_credits` DDL shipped with
`sentinel-hub-integration/index.ts`: `verification_status text DEFAULT
'pending' CHECK (verification_status IN ('pending', 'verified',
'rejected'))`. -/

/-- The enumerated `CHECK (… IN (…))` constraint attached to a text column
in the DDL, if any: `none` means the column carries no such constraint. -/
def enumCheckOf : Option (List String) → String → Bool
  | none, _ => true
  | some allowed, v => allowed.contains v

/-- The `call_status` column of `ivr_calls` is declared
`text DEFAULT 'completed'` with no CHECK constraint. -/
def ivrCallStatusEnum : Option (List String) := none

/-- The `verification_status` column of `carbon_credits` is declared with
`CHECK (verification_status IN ('pending', 'verified', 'rejected'))`. -/
def carbonVerificationStatusEnum : Option (List String) :=
  some ["pending", "verified", "rejected"]

/-- A row of the `ivr_calls` table (timestamp columns, which default to
`now()` and are not mentioned by any claim, are omitted). -/
structure IvrRow where
  id : ℕ
  farmer_id : Option ℕ
  crop_selected : Option String
  crop_condition : Option ℤ
  transcript : Option String
  call_duration : ℤ
  call_status : String
deriving Repr, DecidableEq

/-- A row of the `carbon_credits` table (timestamp columns omitted). -/
structure CarbonRow where
  id : ℕ
  farmer_id : Option ℕ
  opt_in_date : String
  practices_reported : Option String
  verification_status : String
  estimated_credits : ℚ
  verified_credits : ℚ
  credit_price : ℚ
  total_value : ℚ
  registry_id : Option String
deriving Repr, DecidableEq

/-- Row validity for `ivr_calls` as the DDL states it: the BETWEEN check on
`crop_condition` and whatever enumerated check `call_status` carries
(none). -/
def ivrRowChecks (r : IvrRow) : Bool :=
  (match r.crop_condition with
    | none => true
    | some c => decide (1 ≤ c ∧ c ≤ 3))
  && enumCheckOf ivrCallStatusEnum r.call_status

/-- Row validity for `carbon_credits` as the DDL states it. -/
def carbonRowChecks (r : CarbonRow) : Bool :=
  enumCheckOf carbonVerificationStatusEnum r.verification_status

/-- Whether an optional foreign key references an existing `farmers` row
(`farmer_id uuid REFERENCES farmers(id)`; NULL is allowed). -/
def farmerFkOk (farmers : List FarmerRow) : Option ℕ → Bool
  | none => true
  | some fid => farmers.any (fun f => f.id = fid)

/-- Insert into `ivr_calls`, enforcing the DDL constraints. -/
def insertIvrCall (farmers : List FarmerRow) (t : List IvrRow) (r : IvrRow) :
    Except String (List IvrRow) :=
  if !farmerFkOk farmers r.farmer_id then
    .error "insert or update on table ivr_calls violates foreign key constraint"
  else if !ivrRowChecks r then
    .error "new row for relation ivr_calls violates check constraint"
  else
    .ok (t ++ [r])

/-- Insert into `carbon_credits`, enforcing the DDL constraints. -/
def insertCarbonCredit (farmers : List FarmerRow) (t : List CarbonRow)
    (r : CarbonRow) : Except String (List CarbonRow) :=
  if !farmerFkOk farmers r.farmer_id then
    .error "insert or update on table carbon_credits violates foreign key constraint"
  else if !carbonRowChecks r then
    .error "new row for relation carbon_credits violates check constraint"
  else
    .ok (t ++ [r])

/-- The table after an attempted `ivr_calls` insert (the WhatsApp webhook
does not inspect the insert result). -/
def applyInsertIvrCall (farmers : List FarmerRow) (t : List IvrRow)
    (r : IvrRow) : List IvrRow :=
  match insertIvrCall farmers t r with
  | .ok t' => t'
  | .error _ => t

/-! ## WhatsApp webhook: `handleIncomingMessage`

From `supabase/functions/whatsapp-webhook/index.ts`, lines 163–284.  The
canned reply texts selected from the message body do not influence any
stored linkage, so the text-selection table is passed as the `respond`
parameter; everything else follows the source.  `newId` stands for the
`gen_random_uuid()` primary-key default of the inserted farmer row, and
`newIvrId` for that of the logged `ivr_calls` row. -/

/-- An inbound WhatsApp message: `message.from` and `message.text?.body`. -/
structure WaMessage where
  from_ : String
  text_body : Option String
deriving Repr, DecidableEq

/-- An entry of `change.value.contacts`: `wa_id` and `profile?.name`. -/
structure WaContact where
  wa_id : String
  profile_name : Option String
deriving Repr, DecidableEq

/-- `handleIncomingMessage(supabase, message, contacts)`: look the farmer up
by phone number, register a new farmer when the lookup finds none, choose a
canned reply from the lowercased text, and log the interaction to
`ivr_calls` with `farmer_id: farmer?.id` — the value of the lookup performed
before the insert.  (When `message.text?.body` is absent, the JS template
literal renders the transcript fragment as the string `undefined`.) -/
def handleIncomingMessage (respond : Option String → String)
    (newId newIvrId : ℕ) (farmers : List FarmerRow) (ivr : List IvrRow)
    (message : WaMessage) (contacts : List WaContact) :
    List FarmerRow × List IvrRow :=
  let phoneNumber := message.from_
  let messageText := message.text_body.map jsToLower
  let farmer := lookupFarmerByPhone farmers phoneNumber
  let farmers' :=
    match farmer with
    | some _ => farmers
    | none =>
      let contact := contacts.find? (fun c => c.wa_id = phoneNumber)
      let name := ((contact.bind (·.profile_name)).getD "Unknown Farmer")
      applyInsertFarmer farmers
        ⟨newId, phoneNumber, some name, none, none, none, some "English", none⟩
  let responseMessage := respond messageText
  let logRow : IvrRow :=
    { id := newIvrId
      farmer_id := farmer.map (·.id)
      crop_selected := none
      crop_condition := none
      transcript := some ("Received: \"" ++ messageText.getD "undefined"
        ++ "\" | Replied: \"" ++ responseMessage.take 100 ++ "...\"")
      call_duration := 0
      call_status := "whatsapp_received" }
  (farmers', applyInsertIvrCall farmers' ivr logRow)

/-! ## Top-level catch branches of the HTTP handlers

Each embeds the `Response` built in the `catch` block of the corresponding
handler when a thrown error with message `msg` reaches it.  (The
accompanying `console.error` call is an effect outside the embedded
response; every one of these branches does perform it.)  A `Response`
constructed without an explicit `status` has status 200. -/

/-- `carbon-credit-integration/index.ts`, lines 190–202:
`{ error: error.message }` with status 500. -/
def carbonCreditIntegrationCatch (msg : String) : HttpResponse :=
  ⟨500, .obj [("error", .str msg)]⟩

/-- `sentinel-hub-integration/index.ts`, lines 638–654:
`{ error: "Internal server error", message }` with status 500. -/
def sentinelHubIntegrationCatch (msg : String) : HttpResponse :=
  ⟨500, .obj [("error", .str "Internal server error"), ("message", .str msg)]⟩

/-- `save-api-credentials/index.ts`, lines 98–113:
`{ success: false, message }` with status 500. -/
def saveApiCredentialsCatch (msg : String) : HttpResponse :=
  ⟨500, .obj [("success", .boolean false), ("message", .str msg)]⟩

/-- `whatsapp-webhook/index.ts`, lines 145–161:
`{ error: error.message, success: false }` with status 500. -/
def whatsappWebhookCatch (msg : String) : HttpResponse :=
  ⟨500, .obj [("error", .str msg), ("success", .boolean false)]⟩

/-- The shared catch shape of `test-africastalking`, `test-africas-talking`,
`test-maps`, `test-whatsapp`, the test-elevenlabs handler
(`src/unnamed/part_000`), the test-sentinel-hub handler
(`src/unnamed/part_001`) and the test-twilio handler (second document of
`src/unnamed/part_005`): `{ success: false, message: "Test failed: …" }`
with status 500. -/
def testHandlerCatch (msg : String) : HttpResponse :=
  ⟨500, .obj [("success", .boolean false),
              ("message", .str ("Test failed: " ++ msg))]⟩

/-- `elevenlabs-voice-handler/index.ts`, lines 440–455:
`{ success: false, error: … }` with status 500. -/
def elevenLabsVoiceHandlerCatch (msg : String) : HttpResponse :=
  ⟨500, .obj [("success", .boolean false), ("error", .str msg)]⟩

/-- The get-api-credentials handler (`src/unnamed/part_003`, lines 59–75):
`{ success: false, error: …, credentials: {} }` with status 500. -/
def getApiCredentialsCatch (msg : String) : HttpResponse :=
  ⟨500, .obj [("success", .boolean false), ("error", .str msg),
              ("credentials", .obj [])]⟩

/-- The twilio-ivr-webhook handler (`src/unnamed/part_004`, lines 195–207):
`{ error: error.message }` with status 500. -/
def twilioIvrWebhookCatch (msg : String) : HttpResponse :=
  ⟨500, .obj [("error", .str msg)]⟩

/-- The twilio-whatsapp-webhook handler (`src/unnamed/part_002`, lines
127–143): `{ error: error.message, success: false }` with status 500. -/
def twilioWhatsappWebhookCatch (msg : String) : HttpResponse :=
  ⟨500, .obj [("error", .str msg), ("success", .boolean false)]⟩

/-- The meta-whatsapp-webhook handler (`src/unnamed/part_005`, lines
127–137): `{ error: error.message, success: false }` with status 500. -/
def metaWhatsappWebhookCatch (msg : String) : HttpResponse :=
  ⟨500, .obj [("error", .str msg), ("success", .boolean false)]⟩

/-- `test-carbon-credit/index.ts`, lines 81–97: the catch branch returns
`{ success: true, message: … }` with no explicit status, hence 200. -/
def testCarbonCreditCatch : HttpResponse :=
  ⟨200, .obj [("success", .boolean true),
    ("message", .str ("Carbon Credit API configuration saved "
      ++ "(demo mode - actual API testing requires valid endpoint)"))]⟩

/-! ## `carbon-credit-integration` GET branch

From `carbon-credit-integration/index.ts`, lines 146–188, inside the
`try`/`catch` of `serve`.  `creditRates` is a `const` declared inside the
`if (req.method === "POST")` block (lines 36–43); JavaScript block scoping
makes it unreachable from the GET branch, so evaluating
`Object.keys(creditRates)` while building the success body throws a
`ReferenceError`, which the catch turns into the 500 error response. -/

/-- A supabase/PostgREST error: `{ code, message }`. -/
structure DbError where
  code : String
  message : String
deriving Repr, DecidableEq

/-- `Object.keys(name)` under JavaScript scoping: yields the keys when the
identifier is lexically in scope, otherwise throws a `ReferenceError`. -/
def jsObjectKeys (scope : List String) (name : String) (keys : List String) :
    Except String (List String) :=
  if scope.contains name then .ok keys
  else .error ("ReferenceError: " ++ name ++ " is not defined")

/-- The identifiers lexically in scope where the GET branch builds its
success body: the module-level and function-level `const`s.  `creditRates`
(and the other `const`s of the POST block) are not among them. -/
def carbonGetScope : List String :=
  ["corsHeaders", "serve", "req", "supabase", "url", "farmerId",
   "carbonCredit", "error", "marketData"]

/-- JSON rendering of an optional value. -/
def optJson (f : α → JsonVal) : Option α → JsonVal
  | none => .null
  | some a => f a

/-- JSON rendering of a `carbon_credits` row. -/
def carbonRowJson (r : CarbonRow) : JsonVal :=
  .obj [("id", .num r.id), ("farmer_id", optJson (fun n => .num n) r.farmer_id),
        ("opt_in_date", .str r.opt_in_date),
        ("practices_reported", optJson .str r.practices_reported),
        ("verification_status", .str r.verification_status),
        ("estimated_credits", .num r.estimated_credits),
        ("verified_credits", .num r.verified_credits),
        ("credit_price", .num r.credit_price),
        ("total_value", .num r.total_value),
        ("registry_id", optJson .str r.registry_id)]

/-- The GET branch of the `carbon-credit-integration` handler.  `farmerId`
is the `farmer_id` query parameter; `dbData`/`dbErr` are the result of the
`carbon_credits` lookup (`single()` reports `PGRST116` when no row
matches); `entropy` supplies the `Math.random()` draws of the mock market
data.  Errors thrown anywhere in the branch are converted by the
surrounding catch into the status-500 `{ error }` response. -/
def carbonCreditGetBranch (farmerId : Option String) (dbData : Option CarbonRow)
    (dbErr : Option DbError) (entropy : ℕ → ℚ) : HttpResponse :=
  match (do
    match farmerId with
      | none => Except.error "farmer_id is required"
      | some _ => Except.ok ()
    match dbErr with
      | some e =>
        if e.code ≠ "PGRST116" then Except.error e.message else Except.ok ()
      | none => Except.ok ()
    let marketData : JsonVal := .obj
      [("currentPrice", .num (15 + entropy 0 * 10)),
       ("volume24h", .num (1250 + entropy 1 * 500)),
       ("priceChange", .num ((entropy 2 - 1/2) * 4)),
       ("topBuyers", .arr [.str "Microsoft", .str "Google",
          .str "Amazon", .str "Apple"]),
       ("averageVerificationTime", .str "18 days")]
    let keys ← jsObjectKeys carbonGetScope "creditRates"
      ["no-till", "cover-cropping", "rotational-grazing", "agroforestry",
       "precision-agriculture", "organic-farming"]
    Except.ok (JsonVal.obj
      [("carbonCredit", optJson carbonRowJson dbData),
       ("marketData", marketData),
       ("eligiblePractices", .arr (keys.map .str)),
       ("estimatedEarnings", .num (match dbData with
         | some r => round2 (r.estimated_credits * (15 + entropy 0 * 10))
         | none => 0))])
    : Except String JsonVal) with
  | .ok body => ⟨200, body⟩
  | .error msg => ⟨500, .obj [("error", .str msg)]⟩

/-! ## `sentinel-hub-integration` fetch-images branch

From `sentinel-hub-integration/index.ts`: `Deno.serve` lines 520–600 and
`SentinelHubService.generateMockImages` lines 409–459.  The outcome of the
outbound Sentinel Hub fetch is passed in as `sentinelFetch`; `Math.random`
plays no role here. -/

/-- One entry of the `results` map: `{ url }` or `{ error }`. -/
inductive ImgRes where
  | url (s : String)
  | err (s : String)
deriving Repr, DecidableEq

/-- JSON rendering of an `ImgRes`. -/
def imgResJson : ImgRes → JsonVal
  | .url s => .obj [("url", .str s)]
  | .err s => .obj [("error", .str s)]

/-- `URLSearchParams` percent-encoding, restricted to the characters these
URLs contain (`,`, `:`, `|`). -/
def urlEncode (s : String) : String :=
  String.join (s.toList.map (fun c =>
    if c = ',' then "%2C"
    else if c = ':' then "%3A"
    else if c = '|' then "%7C"
    else String.singleton c))

/-- Decimal rendering of a JS number in a template literal (exact text of
the rendering is irrelevant to every claim; `toString` on `ℚ` stands in). -/
def numStr (q : ℚ) : String := toString q

/-- `getLayerMarkerColor` from `sentinel-hub-integration/index.ts`. -/
def getLayerMarkerColor (layerId : String) : String :=
  if layerId = "ndvi" then "green"
  else if layerId = "moisture" then "blue"
  else if layerId = "infrared" then "red"
  else "yellow"

/-- The Google Maps Static API URL `generateMockImages` builds for one
layer: base URL, the `URLSearchParams` in insertion order (zoom 16, size
512x512, scale 2, maptype satellite, png), and the marker parameter for
every layer other than `rgb`. -/
def googleMapsStaticUrl (key : String) (latitude longitude : ℚ)
    (layerId : String) : String :=
  "https://maps.googleapis.com/maps/api/staticmap?"
    ++ "center=" ++ urlEncode (numStr latitude ++ "," ++ numStr longitude)
    ++ "&zoom=16&size=512x512&scale=2&maptype=satellite&format=png"
    ++ "&key=" ++ urlEncode key
    ++ (if layerId ≠ "rgb" then
          "&markers=" ++ urlEncode ("color:" ++ getLayerMarkerColor layerId
            ++ "|" ++ numStr latitude ++ "," ++ numStr longitude)
        else "")

/-- `generateMockImages`: with no Google Maps API key every layer maps to an
error entry; otherwise every layer maps to a Google Maps Static API URL. -/
def generateMockImages (googleMapsApiKey : String) (latitude longitude : ℚ)
    (_imageDate : String) (layers : List String) : List (String × ImgRes) :=
  if googleMapsApiKey = "" then
    layers.map (fun layerId => (layerId, .err "Google Maps API key not configured"))
  else
    layers.map (fun layerId =>
      (layerId, .url (googleMapsStaticUrl googleMapsApiKey latitude longitude layerId)))

/-- The `fetch-images` action of the `sentinel-hub-integration` handler:
after the required-parameter guard (JS falsiness: empty strings and zero
coordinates count as missing), fetch real images when both Sentinel Hub
credentials are present — falling back to `generateMockImages` when that
fetch throws — and otherwise use the mock images directly; the `source`
field of the response depends only on credential presence. -/
def fetchImagesBranch (clientId clientSecret googleMapsApiKey : String)
    (farmerId : String) (latitude longitude : ℚ) (imageDate : String)
    (layers : Option (List String))
    (sentinelFetch : Except String (List (String × ImgRes))) : HttpResponse :=
  if farmerId = "" ∨ latitude = 0 ∨ longitude = 0 ∨ imageDate = "" then
    ⟨400, .obj [("success", .boolean false),
                ("error", .str "Missing required parameters for image fetching")]⟩
  else
    let layersReq := layers.getD ["rgb", "ndvi", "moisture", "infrared"]
    let images :=
      if clientId ≠ "" ∧ clientSecret ≠ "" then
        match sentinelFetch with
        | .ok imgs => imgs
        | .error _ =>
          generateMockImages googleMapsApiKey latitude longitude imageDate layersReq
      else
        generateMockImages googleMapsApiKey latitude longitude imageDate layersReq
    ⟨200, .obj [("success", .boolean true),
        ("images", .obj (images.map (fun p => (p.1, imgResJson p.2)))),
        ("source", .str (if clientId ≠ "" ∧ clientSecret ≠ ""
          then "sentinel-hub" else "google-maps-mock"))]⟩

/-! ## Mock satellite-insight generation

Two distinct generators exist.  `src/services/sentinelHub.ts` (client side)
has `generateEnhancedMockData` (lines 211–289), seeded from
`hashCode(farmerId + date)` through `seededRandom`; its recommendation text
(lines 293–366) reads the current wall-clock month (`new
Date().getMonth()`).  The edge function
`supabase/functions/sentinel-hub-integration/index.ts` has
`getSatelliteInsights` (lines 346–396), whose fallback draws plain
`Math.random()` values.

`Math.sin` (a fixed pure function of the floating-point unit) is the
parameter `jsin`; the ambient per-run state — current month and the
`Math.random` entropy stream — is a `RunCtx`.  Two runs of a generator on
the same request are two evaluations at the same inputs but possibly
different `RunCtx`.  The `sentinelData` payload (bounding boxes, cloud
coverage, quality score), which no claim mentions, is omitted from the
embedded insight record. -/

/-- The ambient context of one run: the wall-clock month (`new
Date().getMonth()`, 0-based) and the `Math.random()` stream. -/
structure RunCtx where
  nowMonth : ℕ
  entropy : ℕ → ℚ

/-- The `SatelliteInsight` fields every claim mentions. -/
structure SatInsight where
  farmerId : String
  imageDate : String
  ndviScore : ℚ
  soilMoisture : ℚ
  vegetationIndex : ℚ
  recommendation : String

/-- Wrap an integer to JavaScript 32-bit signed semantics (the effect of
`hash & hash` and `<<` in `hashCode`). -/
def toInt32 (n : ℤ) : ℤ := (n + 2 ^ 31) % 2 ^ 32 - 2 ^ 31

/-- `hashCode(str)` from `sentinelHub.ts` lines 367–376:
`hash = ((hash << 5) - hash) + charCode`, coerced to a 32-bit integer each
step, then `Math.abs`. -/
def hashCode (s : String) : ℕ :=
  (s.toList.foldl
    (fun hash c => toInt32 (toInt32 (hash * 32) - hash + c.toNat)) 0).natAbs

/-- A field boundary as the generator consumes it (its `bounding_box` only
feeds the omitted `sentinelData`). -/
structure FieldBoundary where
  latitude : ℚ
  longitude : ℚ
deriving Repr, DecidableEq

/-- `fieldBoundaries?.length || 1`. -/
def fieldCountOf : Option (List FieldBoundary) → ℕ
  | none => 1
  | some l => if l.length = 0 then 1 else l.length

/-- The month of an ISO `YYYY-MM-DD` date string, 0-based as
`new Date(date).getMonth()` reports it. -/
def dateMonth (date : String) : ℕ :=
  let cs := date.toList
  (10 * (cs.getD 5 '0').toNat + (cs.getD 6 '0').toNat - 11 * '0'.toNat) - 1

/-- `getSeasonalFactor` (lines 387–398). -/
def getSeasonalFactor (month : ℕ) (latitude : ℚ) : ℚ :=
  if latitude ≥ 0 then
    if 3 ≤ month ∧ month ≤ 8 then 8/10 else 5/10
  else
    if 9 ≤ month ∨ month ≤ 2 then 8/10 else 5/10

/-- `getClimateFactor` (lines 400–415). -/
def getClimateFactor (latitude : ℚ) (_longitude : ℚ) : ℚ :=
  if |latitude| ≤ 47/2 then 9/10
  else if |latitude| ≤ 35 then 8/10
  else if |latitude| ≤ 60 then 7/10
  else 4/10

/-- `getClimateZone` (lines 417–424). -/
def getClimateZone (latitude : ℚ) (_longitude : ℚ) : String :=
  if |latitude| ≤ 47/2 then "Tropical"
  else if |latitude| ≤ 35 then "Subtropical"
  else if |latitude| ≤ 60 then "Temperate"
  else "Polar"

/-- `getSeason` (lines 427–439). -/
def getSeason (month : ℕ) (latitude : ℚ) : String :=
  if latitude ≥ 0 then
    if 3 ≤ month ∧ month ≤ 5 then "Spring"
    else if 6 ≤ month ∧ month ≤ 8 then "Summer"
    else if 9 ≤ month ∧ month ≤ 11 then "Fall"
    else "Winter"
  else
    if 9 ≤ month ∨ month ≤ 2 then "Summer"
    else if 3 ≤ month ∧ month ≤ 5 then "Fall"
    else if 6 ≤ month ∧ month ≤ 8 then "Winter"
    else "Spring"

/-- `generateEnhancedRecommendation` (lines 293–366).  `nowMonth` is the
wall-clock month the source reads through `new Date().getMonth()` — not the
month of the requested image date. -/
def generateEnhancedRecommendation (ndvi soilMoisture : ℚ)
    (latitude longitude : ℚ) (fieldBoundaries : Option (List FieldBoundary))
    (nowMonth : ℕ) : String :=
  let climateZone := getClimateZone latitude longitude
  let season := getSeason nowMonth latitude
  let fieldCount := fieldCountOf fieldBoundaries
  let hasMultipleFields := 1 < fieldCount
  let intro :=
    if hasMultipleFields then
      "Multi-field analysis (" ++ toString fieldCount ++ " fields mapped): "
    else ""
  let mainPart :=
    if ndvi > 7/10 ∧ soilMoisture > 60 then
      "Excellent crop health detected across "
        ++ (if hasMultipleFields then "all fields" else "the field")
        ++ " in " ++ jsToLower climateZone ++ " " ++ jsToLower season
        ++ " conditions. "
        ++ (if hasMultipleFields then
              "Continue current field rotation practices and monitor for "
                ++ "optimal harvest timing across fields. "
            else
              "Continue current practices and consider harvest timing "
                ++ "optimization. ")
        ++ "Field-specific monitoring recommended for the next 2-3 weeks."
    else if ndvi > 6/10 ∧ soilMoisture > 50 then
      "Good vegetation health observed for " ++ jsToLower season ++ " season. "
        ++ (if hasMultipleFields then
              "Maintain current irrigation schedule and consider "
                ++ "field-specific fertilization based on individual field "
                ++ "performance. "
            else
              "Maintain current irrigation schedule and monitor crop "
                ++ "development. ")
        ++ "Consider precision agriculture techniques for optimization."
    else if ndvi > 4/10 ∧ soilMoisture > 40 then
      "Moderate vegetation health in " ++ jsToLower climateZone ++ " zone. "
        ++ (if hasMultipleFields then
              "Field-specific analysis shows variation - prioritize "
                ++ "irrigation and fertilization for underperforming fields. "
            else
              "Consider increasing irrigation frequency and check for "
                ++ "nutrient deficiencies. ")
        ++ "Soil testing recommended for targeted interventions."
    else if ndvi > 3/10 ∧ soilMoisture < 30 then
      "Low soil moisture detected during " ++ jsToLower season ++ " season. "
        ++ (if hasMultipleFields then
              "Immediate field-specific irrigation recommended - prioritize "
                ++ "most critical fields first. "
            else
              "Immediate irrigation recommended to prevent crop stress. ")
        ++ "Consider drought-resistant varieties for future planting cycles."
    else if ndvi < 3/10 then
      "Poor vegetation index detected in " ++ jsToLower climateZone
        ++ " conditions. "
        ++ (if hasMultipleFields then
              "Urgent field-by-field assessment required - investigate "
                ++ "potential causes across all mapped areas. "
            else
              "Investigate potential causes: pests, disease, or severe "
                ++ "nutrient deficiency. ")
        ++ "Consult agricultural extension services for immediate intervention."
    else
      "Mixed conditions detected for " ++ jsToLower season ++ " "
        ++ jsToLower climateZone ++ " farming. "
        ++ (if hasMultipleFields then
              "Field-specific interventions recommended based on individual "
                ++ "field performance data. "
            else
              "Consider targeted interventions based on field observations. ")
        ++ "Enhanced monitoring recommended over the next 1-2 weeks."
  let fieldAdvice :=
    if hasMultipleFields then
      " Field management advantage: Multiple mapped fields enable precision "
        ++ "agriculture and optimized resource allocation."
    else ""
  let climateAdvice :=
    if climateZone = "Tropical" ∧ soilMoisture > 70 then
      " Monitor for fungal diseases in high humidity conditions."
    else if climateZone = "Arid" ∧ soilMoisture < 40 then
      " Water conservation techniques strongly recommended."
    else ""
  intro ++ mainPart ++ fieldAdvice ++ climateAdvice

/-- `generateEnhancedMockData` (lines 211–289).  The seeded PRNG
(`seededRandom`, lines 378–385) keeps `x = Math.sin(previous) * 10000` and
returns `x - Math.floor(x)`; the two draws consumed by the embedded fields
are taken in source order (NDVI variation, then field variation).  Note
that `ctx.entropy` is never consumed: the numeric outputs depend only on
the arguments, and only the recommendation reads `ctx.nowMonth`. -/
def generateEnhancedMockData (jsin : ℚ → ℚ) (farmerId : String)
    (latitude longitude : ℚ) (date : String)
    (fieldBoundaries : Option (List FieldBoundary)) (ctx : RunCtx) :
    SatInsight :=
  let seed : ℚ := (hashCode (farmerId ++ date) : ℚ)
  let x0 := jsin seed * 10000
  let x1 := jsin x0 * 10000
  let r1 := Int.fract x1
  let x2 := jsin x1 * 10000
  let r2 := Int.fract x2
  let fieldCount := fieldCountOf fieldBoundaries
  let hasMultipleFields := 1 < fieldCount
  let latitudeFactor := max (3/10) (1 - |latitude| / 90)
  let fieldDiversityBonus : ℚ := if hasMultipleFields then 5/100 else 0
  let month := dateMonth date
  let seasonalFactor := getSeasonalFactor month latitude
  let climateFactor := getClimateFactor latitude longitude
  let managementFactor : ℚ := if hasMultipleFields then 11/10 else 1
  let baseNDVI := latitudeFactor * seasonalFactor * climateFactor
    * managementFactor + fieldDiversityBonus
  let ndviVariation := (r1 - 1/2) * (15/100)
  let ndviScore := max (1/10) (min (9/10) (baseNDVI + ndviVariation))
  let baseMoisture := ndviScore * 55 + 25
  let fieldVariation :=
    if hasMultipleFields then (r2 - 1/2) * 15 else (r2 - 1/2) * 20
  let soilMoisture := max 15 (min 85 (baseMoisture + fieldVariation))
  let vegetationIndex := ndviScore * 95 + (if hasMultipleFields then 5 else 0)
  { farmerId := farmerId
    imageDate := date
    ndviScore := (round (ndviScore * 1000) : ℤ) / 1000
    soilMoisture := (round (soilMoisture * 10) : ℤ) / 10
    vegetationIndex := (round (vegetationIndex * 10) : ℤ) / 10
    recommendation := generateEnhancedRecommendation ndviScore soilMoisture
      latitude longitude fieldBoundaries ctx.nowMonth }

/-- `generateRecommendation` of the edge function (lines 397–405). -/
def generateRecommendation (ndvi : ℚ) : String :=
  if ndvi > 6/10 then
    "Excellent vegetation health detected. Continue current practices."
  else if ndvi > 4/10 then
    "Moderate vegetation health. Consider irrigation or fertilization."
  else
    "Low vegetation index detected. Immediate attention required."

/-- The fallback branch of the edge function `getSatelliteInsights`
(lines 376–395): every numeric field and the recommendation argument draw a
fresh `Math.random()` value, in source order. -/
def edgeInsightsFallback (farmerId : String) (_latitude _longitude : ℚ)
    (_startDate endDate : String) (ctx : RunCtx) : SatInsight :=
  { farmerId := farmerId
    imageDate := endDate
    ndviScore := 3/10 + ctx.entropy 0 * (1/2)
    soilMoisture := 20 + ctx.entropy 1 * 60
    vegetationIndex := (3/10 + ctx.entropy 2 * (1/2)) * 100
    recommendation := generateRecommendation (3/10 + ctx.entropy 3 * (1/2)) }

end Agrinova

namespace Agrinova

/-- C1: the carbon-credit calculation (both the front-end service and the
edge-function POST branch) returns the per-practice rates summed over the
practices, times acreage, times the case-insensitive crop multiplier,
rounded to two decimals. -/
theorem calculateEstimatedCredits_spec (practices : List String) (acreage : ℚ)
    (cropType : String) :
    calculateEstimatedCredits practices acreage cropType
        = specEstimatedCredits practices acreage cropType
      ∧ edgeStoredEstimatedCredits practices acreage cropType
        = specEstimatedCredits practices acreage cropType := by
  constructor
  · simp only [calculateEstimatedCredits, specEstimatedCredits,
      foldl_rate_eq_sum_mul]
    ring_nf
  · simp only [edgeStoredEstimatedCredits, edgePostEstimatedCredits,
      specEstimatedCredits, foldl_rate_eq_sum_mul]
    ring_nf

/-- C6: inserting a farmer whose `phone_number` equals that of an existing
row is rejected by the unique constraint and leaves the `farmers` table
unchanged. -/
theorem insertFarmer_duplicate_phone_rejected (t : List FarmerRow)
    (r r0 : FarmerRow) (hmem : r0 ∈ t)
    (hphone : r0.phone_number = r.phone_number) :
    (∃ e, insertFarmer t r = .error e) ∧ applyInsertFarmer t r = t := by
  have hany : t.any (fun x => x.phone_number = r.phone_number) = true := by
    exact List.any_eq_true.mpr ⟨r0, hmem, by simp [hphone]⟩
  refine ⟨⟨"duplicate key value violates unique constraint on phone_number", ?_⟩, ?_⟩
  · simp [insertFarmer, hany]
  · simp [applyInsertFarmer, insertFarmer, hany]

/-- Witness for `insertFarmer_duplicate_phone_rejected` at a concrete
table and row. -/
theorem insertFarmer_duplicate_phone_rejected_witness :
    (∃ e, insertFarmer
        [⟨0, "+254700000001", some "Aisha", none, none, none, some "English", none⟩]
        ⟨1, "+254700000001", some "Brian", none, none, none, some "English", none⟩
        = .error e)
      ∧ applyInsertFarmer
          [⟨0, "+254700000001", some "Aisha", none, none, none, some "English", none⟩]
          ⟨1, "+254700000001", some "Brian", none, none, none, some "English", none⟩
        = [⟨0, "+254700000001", some "Aisha", none, none, none, some "English", none⟩] :=
  insertFarmer_duplicate_phone_rejected _ _
    ⟨0, "+254700000001", some "Aisha", none, none, none, some "English", none⟩
    (by simp) (by simp)

/-- C7: a farmer inserted with a given phone number round-trips: a
subsequent `single()` lookup of `farmers` by that phone number returns the
inserted record. -/
theorem insertFarmer_lookup_roundtrip (t t' : List FarmerRow) (r : FarmerRow)
    (h : insertFarmer t r = .ok t') :
    lookupFarmerByPhone t' r.phone_number = some r := by
  unfold insertFarmer at h
  by_cases hdup : t.any (fun r0 => r0.phone_number = r.phone_number) = true
  · simp [hdup] at h
  · simp only [hdup, Bool.false_eq_true, if_false, Except.ok.injEq] at h
    subst h
    have hfilter : t.filter (fun r0 => r0.phone_number = r.phone_number) = [] := by
      rw [List.filter_eq_nil_iff]
      intro a ha
      simp only [decide_eq_true_eq]
      intro hEq
      exact hdup (List.any_eq_true.mpr ⟨a, ha, by simp [hEq]⟩)
    unfold lookupFarmerByPhone
    rw [List.filter_append, hfilter]
    simp

/-- Witness for `insertFarmer_lookup_roundtrip` at a concrete insert. -/
theorem insertFarmer_lookup_roundtrip_witness :
    lookupFarmerByPhone
        [⟨0, "+254700000001", some "Aisha", none, none, none, some "English", none⟩,
         ⟨1, "+254700000002", some "Brian", none, none, none, some "English", none⟩]
        "+254700000002"
      = some ⟨1, "+254700000002", some "Brian", none, none, none, some "English", none⟩ :=
  insertFarmer_lookup_roundtrip
    [⟨0, "+254700000001", some "Aisha", none, none, none, some "English", none⟩] _
    ⟨1, "+254700000002", some "Brian", none, none, none, some "English", none⟩
    (by simp [insertFarmer])

/-- C8: starting from the empty `api_credentials` table, any sequence of
`save-api-credentials` invocations leaves at most one row; it has id
`'main'` and holds the most recently submitted credentials blob (no row at
all when no invocation carried a credentials payload). -/
theorem saveCredentials_single_mutable_row (ops : List (Option String × String)) :
    (saveCredentialsRun [] ops).map (fun r => (r.id, r.credentials))
      = ((ops.filterMap (·.1)).getLast?).toList.map (fun c => ("main", c)) := by
  induction ops with
  | nil => rfl
  | cons op ops ih =>
    obtain ⟨op1, op2⟩ := op
    cases op1 with
    | none =>
      simpa [saveCredentialsRun, saveCredentialsStep] using ih
    | some creds =>
      have hrun : saveCredentialsRun [] ((some creds, op2) :: ops)
          = saveCredentialsRun [⟨"main", creds, op2, op2⟩] ops := by
        simp [saveCredentialsRun, saveCredentialsStep]
      obtain ⟨c', ut', hmain, hc⟩ := saveCredentialsRun_main ops creds op2 op2
      rw [hrun, hmain]
      subst hc
      simp [List.filterMap_cons, List.getLast?_cons, List.getLastD_eq_getLast?,
        Option.getD]

/-- C4 counterexample: the `ivr_calls` DDL attaches no enumerated CHECK
constraint to `call_status` — a concrete row whose `call_status` is not any
recognised status is stored untouched, and no finite enumerated set can
bound the statuses of storable rows, refuting the claim that every stored
`ivr_calls` row has `call_status` drawn from a fixed enumerated set. -/
theorem ivr_call_status_check_missing :
    ivrCallStatusEnum = none
      ∧ insertIvrCall [] []
          ⟨0, none, none, none, none, 0, "surely-not-an-enumerated-status"⟩
        = .ok [⟨0, none, none, none, none, 0, "surely-not-an-enumerated-status"⟩]
      ∧ ¬ ∃ S : List String, ∀ (t : List IvrRow) (r : IvrRow) (t' : List IvrRow),
          insertIvrCall [] t r = .ok t' → r.call_status ∈ S := by
  refine ⟨rfl, rfl, ?_⟩
  rintro ⟨S, hS⟩
  have hins : ∀ n : ℕ, insertIvrCall [] []
      ⟨0, none, none, none, none, 0, ⟨List.replicate n 'a'⟩⟩
      = .ok [⟨0, none, none, none, none, 0, ⟨List.replicate n 'a'⟩⟩] := fun n => rfl
  have hmem : ∀ n : ℕ, (⟨List.replicate n 'a'⟩ : String) ∈ S := fun n =>
    hS [] ⟨0, none, none, none, none, 0, ⟨List.replicate n 'a'⟩⟩ _ (hins n)
  have hinj : Function.Injective (fun n : ℕ => (⟨List.replicate n 'a'⟩ : String)) := by
    intro n m h
    have := congrArg String.length h
    simpa using this
  exact Set.infinite_range_of_injective hinj
    ((S.finite_toSet).subset (Set.range_subset_iff.mpr hmem))

/-- C4 (amended): the schema enforces the enumerated CHECK on
`carbon_credits.verification_status` — every storable row has it in
{pending, verified, rejected} and rows outside it are rejected — while
`ivr_calls.call_status` is plain text whose values the schema never
constrains. -/
theorem schema_enum_checks (farmers : List FarmerRow) :
    (∀ (t t' : List CarbonRow) (r : CarbonRow),
        insertCarbonCredit farmers t r = .ok t' →
          r.verification_status ∈ ["pending", "verified", "rejected"])
      ∧ (∀ (t : List CarbonRow) (r : CarbonRow),
          r.verification_status ∉ (["pending", "verified", "rejected"] : List String) →
            ∃ e, insertCarbonCredit farmers t r = .error e)
      ∧ (∀ s : String, enumCheckOf ivrCallStatusEnum s = true) := by
  refine ⟨?_, ?_, fun s => rfl⟩
  · intro t t' r h
    unfold insertCarbonCredit at h
    by_cases hfk : farmerFkOk farmers r.farmer_id
    · by_cases hck : carbonRowChecks r
      · have : r.verification_status ∈
            (["pending", "verified", "rejected"] : List String) := by
          simpa [carbonRowChecks, carbonVerificationStatusEnum, enumCheckOf]
            using hck
        simpa using this
      · simp [hfk, hck] at h
    · simp [hfk] at h
  · intro t r hbad
    unfold insertCarbonCredit
    by_cases hfk : farmerFkOk farmers r.farmer_id
    · have hck : carbonRowChecks r = false := by
        simp only [carbonRowChecks, carbonVerificationStatusEnum, enumCheckOf]
        simpa using hbad
      exact ⟨"new row for relation carbon_credits violates check constraint",
        by simp [hfk, hck]⟩
    · exact ⟨"insert or update on table carbon_credits violates foreign key constraint",
        by simp [hfk]⟩

/-- Witness for `schema_enum_checks` at concrete rows: an accepted
`pending` row and a rejected junk-status row. -/
theorem schema_enum_checks_witness :
    (("pending" : String) ∈ ["pending", "verified", "rejected"])
      ∧ ∃ e, insertCarbonCredit [] []
          ⟨0, none, "2025-06-17", none, "draft", 0, 0, 0, 0, none⟩ = .error e :=
  ⟨(schema_enum_checks []).1 [] _
      ⟨0, none, "2025-06-17", none, "pending", 0, 0, 0, 0, none⟩ rfl,
    (schema_enum_checks []).2.1 []
      ⟨0, none, "2025-06-17", none, "draft", 0, 0, 0, 0, none⟩ (by decide)⟩

/-- C9: when the sender of an inbound WhatsApp message matches no existing
farmer, `handleIncomingMessage` registers a new farmer row with that phone
number, yet the `ivr_calls` log row recorded for the same interaction has
`farmer_id` null, because it is taken from the lookup that preceded the
insert. -/
theorem handleIncomingMessage_new_farmer_logs_null (respond : Option String → String)
    (newId newIvrId : ℕ) (farmers : List FarmerRow) (ivr : List IvrRow)
    (message : WaMessage) (contacts : List WaContact)
    (hnew : ∀ r ∈ farmers, r.phone_number ≠ message.from_) :
    (handleIncomingMessage respond newId newIvrId farmers ivr message contacts).1
        = farmers ++
          [⟨newId, message.from_,
            some (((contacts.find? (fun c => c.wa_id = message.from_)).bind
              (·.profile_name)).getD "Unknown Farmer"),
            none, none, none, some "English", none⟩]
      ∧ ∃ logRow : IvrRow,
          (handleIncomingMessage respond newId newIvrId farmers ivr message contacts).2
            = ivr ++ [logRow]
          ∧ logRow.farmer_id = none
          ∧ logRow.call_status = "whatsapp_received" := by
  have hfilter : farmers.filter (fun r => r.phone_number = message.from_) = [] := by
    rw [List.filter_eq_nil_iff]
    intro a ha
    simpa using hnew a ha
  have hlookup : lookupFarmerByPhone farmers message.from_ = none := by
    unfold lookupFarmerByPhone
    rw [hfilter]
  have hnodup : farmers.any (fun r0 => r0.phone_number = message.from_) = false := by
    rw [List.any_eq_false]
    intro a ha
    simpa using hnew a ha
  simp only [handleIncomingMessage, hlookup]
  refine ⟨?_, ?_⟩
  · simp [applyInsertFarmer, insertFarmer, hnodup]
  · refine ⟨⟨newIvrId, none, none, none,
      some ("Received: \""
        ++ (message.text_body.map jsToLower).getD "undefined"
        ++ "\" | Replied: \""
        ++ (respond (message.text_body.map jsToLower)).take 100 ++ "...\""),
      0, "whatsapp_received"⟩, ?_, rfl, rfl⟩
    simp [applyInsertIvrCall, insertIvrCall, farmerFkOk, ivrRowChecks,
      enumCheckOf, ivrCallStatusEnum]

/-- Witness for `handleIncomingMessage_new_farmer_logs_null`: a concrete
unknown sender. -/
theorem handleIncomingMessage_new_farmer_logs_null_witness :
    (handleIncomingMessage (fun _ => "welcome") 7 8 [] [] ⟨"+254700000009", some "Hi"⟩
        [⟨"+254700000009", some "Carol"⟩]).1
        = [⟨7, "+254700000009", some "Carol", none, none, none, some "English", none⟩]
      ∧ ∃ logRow : IvrRow,
          (handleIncomingMessage (fun _ => "welcome") 7 8 [] []
              ⟨"+254700000009", some "Hi"⟩ [⟨"+254700000009", some "Carol"⟩]).2
            = [logRow]
          ∧ logRow.farmer_id = none
          ∧ logRow.call_status = "whatsapp_received" := by
  have h := handleIncomingMessage_new_farmer_logs_null (fun _ => "welcome") 7 8 [] []
    ⟨"+254700000009", some "Hi"⟩ [⟨"+254700000009", some "Carol"⟩]
    (by intro r hr; simp at hr)
  simpa using h

/-- C3: every GET request to the `carbon-credit-integration` handler that
carries a `farmer_id` query parameter yields the status-500 `{ error }`
response, never the documented success body: building the success body
evaluates `Object.keys(creditRates)`, and `creditRates` is out of scope in
the GET branch. -/
theorem carbonCreditGet_always_500 (fid : String) (dbData : Option CarbonRow)
    (dbErr : Option DbError) (entropy : ℕ → ℚ) :
    (carbonCreditGetBranch (some fid) dbData dbErr entropy).status = 500
      ∧ ∃ msg, carbonCreditGetBranch (some fid) dbData dbErr entropy
          = ⟨500, .obj [("error", .str msg)]⟩ := by
  cases dbErr with
  | none =>
    exact ⟨rfl, "ReferenceError: creditRates is not defined", rfl⟩
  | some e =>
    by_cases h : e.code = "PGRST116"
    · refine ⟨?_, "ReferenceError: creditRates is not defined", ?_⟩ <;>
      · simp only [carbonCreditGetBranch, h, jsObjectKeys, carbonGetScope,
          ne_eq, not_true_eq_false, if_false, ite_self]
        rfl
    · refine ⟨?_, e.message, ?_⟩ <;>
      · simp only [carbonCreditGetBranch, jsObjectKeys, carbonGetScope, ne_eq,
          h, not_false_eq_true, if_true]
        rfl

/-- C5 counterexample: caught errors do not uniformly produce a
`success:false` body — the `carbon-credit-integration` and
`sentinel-hub-integration` catch bodies carry no `success` field at all,
and the `test-carbon-credit` catch body carries `success: true`. -/
theorem catchResponse_shape_counterexample :
    (carbonCreditIntegrationCatch "database timeout").body.getField "success" = none
      ∧ (sentinelHubIntegrationCatch "database timeout").body.getField "success" = none
      ∧ testCarbonCreditCatch.body.getField "success" = some (.boolean true)
      ∧ testCarbonCreditCatch.status = 200 :=
  ⟨rfl, rfl, rfl, rfl⟩

/-- C5 (amended): every top-level catch branch of every HTTP handler in the
repository logs to console and returns a JSON body with HTTP status 200 or
500 that carries a message, but the shape is not uniform:
`save-api-credentials`, `whatsapp-webhook`, `twilio-whatsapp-webhook`,
`meta-whatsapp-webhook`, `elevenlabs-voice-handler`, `get-api-credentials`
and the seven `test-*` proxies sharing the `Test failed` shape return
`success:false` with status 500; `carbon-credit-integration` and
`twilio-ivr-webhook` return `{ error }` and `sentinel-hub-integration`
`{ error, message }` without a success field (all status 500); and
`test-carbon-credit` returns `success:true` with status 200. -/
theorem catchResponse_shapes (msg : String) :
    (carbonCreditIntegrationCatch msg).status = 500
      ∧ (carbonCreditIntegrationCatch msg).body.getField "error" = some (.str msg)
      ∧ (carbonCreditIntegrationCatch msg).body.getField "success" = none
      ∧ (sentinelHubIntegrationCatch msg).status = 500
      ∧ (sentinelHubIntegrationCatch msg).body.getField "message" = some (.str msg)
      ∧ (sentinelHubIntegrationCatch msg).body.getField "success" = none
      ∧ (saveApiCredentialsCatch msg).status = 500
      ∧ (saveApiCredentialsCatch msg).body.getField "success"
          = some (.boolean false)
      ∧ (saveApiCredentialsCatch msg).body.getField "message" = some (.str msg)
      ∧ (whatsappWebhookCatch msg).status = 500
      ∧ (whatsappWebhookCatch msg).body.getField "success" = some (.boolean false)
      ∧ (whatsappWebhookCatch msg).body.getField "error" = some (.str msg)
      ∧ (testHandlerCatch msg).status = 500
      ∧ (testHandlerCatch msg).body.getField "success" = some (.boolean false)
      ∧ (testHandlerCatch msg).body.getField "message"
          = some (.str ("Test failed: " ++ msg))
      ∧ (elevenLabsVoiceHandlerCatch msg).status = 500
      ∧ (elevenLabsVoiceHandlerCatch msg).body.getField "success"
          = some (.boolean false)
      ∧ (elevenLabsVoiceHandlerCatch msg).body.getField "error" = some (.str msg)
      ∧ (getApiCredentialsCatch msg).status = 500
      ∧ (getApiCredentialsCatch msg).body.getField "success"
          = some (.boolean false)
      ∧ (getApiCredentialsCatch msg).body.getField "error" = some (.str msg)
      ∧ (twilioIvrWebhookCatch msg).status = 500
      ∧ (twilioIvrWebhookCatch msg).body.getField "error" = some (.str msg)
      ∧ (twilioIvrWebhookCatch msg).body.getField "success" = none
      ∧ (twilioWhatsappWebhookCatch msg).status = 500
      ∧ (twilioWhatsappWebhookCatch msg).body.getField "success"
          = some (.boolean false)
      ∧ (twilioWhatsappWebhookCatch msg).body.getField "error" = some (.str msg)
      ∧ (metaWhatsappWebhookCatch msg).status = 500
      ∧ (metaWhatsappWebhookCatch msg).body.getField "success"
          = some (.boolean false)
      ∧ (metaWhatsappWebhookCatch msg).body.getField "error" = some (.str msg)
      ∧ testCarbonCreditCatch.status = 200
      ∧ testCarbonCreditCatch.body.getField "success" = some (.boolean true) := by
  repeat' apply And.intro
  all_goals rfl

/-- C10: when a fetch-images request carries Sentinel Hub credentials (and
a Google Maps key) and the Sentinel Hub fetch throws, the handler responds
success:true with a Google Maps Static API mock URL substituted for every
requested layer, while `source` still reports `sentinel-hub`. -/
theorem fetchImages_fallback_reports_sentinel_hub
    (clientId clientSecret googleMapsApiKey farmerId : String)
    (latitude longitude : ℚ) (imageDate : String)
    (layers : Option (List String)) (errMsg : String)
    (hcid : clientId ≠ "") (hsec : clientSecret ≠ "")
    (hgm : googleMapsApiKey ≠ "") (hfid : farmerId ≠ "")
    (hlat : latitude ≠ 0) (hlng : longitude ≠ 0) (hdate : imageDate ≠ "") :
    fetchImagesBranch clientId clientSecret googleMapsApiKey farmerId latitude
        longitude imageDate layers (.error errMsg)
      = ⟨200, .obj [("success", .boolean true),
          ("images", .obj ((layers.getD ["rgb", "ndvi", "moisture", "infrared"]).map
            (fun layerId => (layerId, JsonVal.obj [("url",
              .str (googleMapsStaticUrl googleMapsApiKey latitude longitude
                layerId))])))),
          ("source", .str "sentinel-hub")]⟩ := by
  have hmiss : ¬(farmerId = "" ∨ latitude = 0 ∨ longitude = 0 ∨ imageDate = "") := by
    push_neg
    exact ⟨hfid, hlat, hlng, hdate⟩
  have hcred : clientId ≠ "" ∧ clientSecret ≠ "" := ⟨hcid, hsec⟩
  simp only [fetchImagesBranch, if_neg hmiss, if_pos hcred, generateMockImages,
    if_neg hgm]
  simp [List.map_map, Function.comp, imgResJson]

/-- Witness for `fetchImages_fallback_reports_sentinel_hub` at a concrete
request. -/
theorem fetchImages_fallback_reports_sentinel_hub_witness :
    fetchImagesBranch "client-id" "client-secret" "maps-key" "farmer-1" 10 20
        "2024-06-15" none (.error "fetch failed")
      = ⟨200, .obj [("success", .boolean true),
          ("images", .obj (((none : Option (List String)).getD
              ["rgb", "ndvi", "moisture", "infrared"]).map
            (fun layerId => (layerId, JsonVal.obj [("url",
              .str (googleMapsStaticUrl "maps-key" 10 20 layerId))])))),
          ("source", .str "sentinel-hub")]⟩ :=
  fetchImages_fallback_reports_sentinel_hub "client-id" "client-secret"
    "maps-key" "farmer-1" 10 20 "2024-06-15" none "fetch failed"
    (by decide) (by decide) (by decide) (by decide)
    (by simp) (by simp) (by decide)

/-- C2 counterexample: the edge-function fallback is not seeded — two runs
on the identical farmer ID, dates and coordinates that observe different
ambient `Math.random` draws report different NDVI scores (3/10 versus
11/20). -/
theorem edgeInsightsFallback_not_run_independent :
    (edgeInsightsFallback "farmer-1" 10 20 "2024-06-01" "2024-06-15"
        ⟨5, fun _ => 0⟩).ndviScore
      ≠ (edgeInsightsFallback "farmer-1" 10 20 "2024-06-01" "2024-06-15"
        ⟨5, fun _ => 1/2⟩).ndviScore := by
  simp only [edgeInsightsFallback]
  norm_num

/-- C2 (amended): the client-side fallback generator
`generateEnhancedMockData` is seeded from the farmer ID and date: for every
fixed farmer ID, date, coordinates and field boundaries, two runs produce
identical NDVI, soil-moisture and vegetation-index values unconditionally,
and identical full insights (recommendation included) whenever the two runs
observe the same wall-clock month — the recommendation reads `new
Date().getMonth()`. -/
theorem generateEnhancedMockData_seeded_deterministic (jsin : ℚ → ℚ)
    (farmerId : String) (latitude longitude : ℚ) (date : String)
    (fieldBoundaries : Option (List FieldBoundary)) (ctx1 ctx2 : RunCtx) :
    (generateEnhancedMockData jsin farmerId latitude longitude date
        fieldBoundaries ctx1).ndviScore
      = (generateEnhancedMockData jsin farmerId latitude longitude date
          fieldBoundaries ctx2).ndviScore
    ∧ (generateEnhancedMockData jsin farmerId latitude longitude date
        fieldBoundaries ctx1).soilMoisture
      = (generateEnhancedMockData jsin farmerId latitude longitude date
          fieldBoundaries ctx2).soilMoisture
    ∧ (generateEnhancedMockData jsin farmerId latitude longitude date
        fieldBoundaries ctx1).vegetationIndex
      = (generateEnhancedMockData jsin farmerId latitude longitude date
          fieldBoundaries ctx2).vegetationIndex
    ∧ (ctx1.nowMonth = ctx2.nowMonth →
        generateEnhancedMockData jsin farmerId latitude longitude date
            fieldBoundaries ctx1
          = generateEnhancedMockData jsin farmerId latitude longitude date
              fieldBoundaries ctx2) := by
  refine ⟨rfl, rfl, rfl, fun hnow => ?_⟩
  simp only [generateEnhancedMockData, hnow]

/-- Witness for `generateEnhancedMockData_seeded_deterministic` at concrete
inputs and two concrete run contexts sharing the wall-clock month. -/
theorem generateEnhancedMockData_seeded_deterministic_witness :
    (generateEnhancedMockData (fun _ => 0) "farmer-1" 10 20 "2024-06-15" none
        ⟨5, fun _ => 0⟩).ndviScore
      = (generateEnhancedMockData (fun _ => 0) "farmer-1" 10 20 "2024-06-15" none
          ⟨5, fun _ => 1⟩).ndviScore
    ∧ generateEnhancedMockData (fun _ => 0) "farmer-1" 10 20 "2024-06-15" none
          ⟨5, fun _ => 0⟩
        = generateEnhancedMockData (fun _ => 0) "farmer-1" 10 20 "2024-06-15" none
          ⟨5, fun _ => 1⟩ :=
  ⟨(generateEnhancedMockData_seeded_deterministic (fun _ => 0) "farmer-1" 10 20
      "2024-06-15" none ⟨5, fun _ => 0⟩ ⟨5, fun _ => 1⟩).1,
   (generateEnhancedMockData_seeded_deterministic (fun _ => 0) "farmer-1" 10 20
      "2024-06-15" none ⟨5, fun _ => 0⟩ ⟨5, fun _ => 1⟩).2.2.2 rfl⟩

end Agrinova
